import Mathlib

/-!
Shallow embedding of `src/operations/bump_sequence.rs` from the
stellar-base repository: the `BumpSequenceOperation` value type, its
builder, and its XDR codec bridge, together with theorems settling the
specification claims about them.
-/

/-- Modelled from the spec: account and keypair management is out of scope
("consumed as already-valid pre-built values"); `crate::crypto::MuxedAccount`
is not under `src/`, so a muxed account is embedded as an opaque value that
the bump-sequence code only stores and compares. -/
structure MuxedAccount where
  repr : Nat
deriving DecidableEq

namespace xdr

/-- Embeds `xdr::Int64` (a newtype around a signed 64-bit integer); the
bump-sequence code performs no arithmetic on it, so the payload is `Int`. -/
structure Int64 where
  value : Int
deriving DecidableEq

/-- Embeds `xdr::Int64::new`. -/
def Int64.new (value : Int) : Int64 :=
  { value := value }

/-- Embeds `xdr::SequenceNumber`, a newtype around `xdr::Int64`. -/
structure SequenceNumber where
  value : Int64
deriving DecidableEq

/-- Embeds `xdr::SequenceNumber::new`. -/
def SequenceNumber.new (value : Int64) : SequenceNumber :=
  { value := value }

/-- Embeds `xdr::BumpSequenceOp`: the variant payload holding only the
target sequence number. -/
structure BumpSequenceOp where
  bump_to : SequenceNumber
deriving DecidableEq

/-- Embeds the `xdr::OperationBody` union, restricted to the variant the
visible source constructs. -/
inductive OperationBody where
  | BumpSequence : BumpSequenceOp → OperationBody
deriving DecidableEq

end xdr

/-- Embeds `crate::error::Error`, restricted to the variant
`bump_sequence.rs` constructs. -/
inductive Error where
  | InvalidOperation : String → Error
deriving DecidableEq

/-- Embeds `BumpSequenceOperation`: optional per-operation source account
override and the target sequence value. -/
structure BumpSequenceOperation where
  source_account : Option MuxedAccount
  bump_to : Int
deriving DecidableEq

/-- Embeds the `crate::operations::Operation` union, restricted to the
variant `bump_sequence.rs` constructs. -/
inductive Operation where
  | BumpSequence : BumpSequenceOperation → Operation
deriving DecidableEq

/-- Embeds `BumpSequenceOperationBuilder`: both fields unset until a
setter is called. -/
structure BumpSequenceOperationBuilder where
  source_account : Option MuxedAccount
  bump_to : Option Int
deriving DecidableEq

/-- Embeds `BumpSequenceOperation::to_xdr_operation_body`. -/
def BumpSequenceOperation.to_xdr_operation_body
    (self : BumpSequenceOperation) : Except Error xdr.OperationBody :=
  let bump_to := xdr.SequenceNumber.new (xdr.Int64.new self.bump_to)
  let inner : xdr.BumpSequenceOp := { bump_to := bump_to }
  Except.ok (xdr.OperationBody.BumpSequence inner)

/-- Embeds `BumpSequenceOperation::from_xdr_operation_body`. -/
def BumpSequenceOperation.from_xdr_operation_body
    (source_account : Option MuxedAccount) (x : xdr.BumpSequenceOp) :
    Except Error BumpSequenceOperation :=
  let bump_to := x.bump_to.value.value
  Except.ok { source_account := source_account, bump_to := bump_to }

/-- Embeds `BumpSequenceOperationBuilder::new`. -/
def BumpSequenceOperationBuilder.new : BumpSequenceOperationBuilder :=
  { source_account := none, bump_to := none }

/-- Embeds `BumpSequenceOperationBuilder::with_source_account` (the `Into`
conversion is the identity on an already-muxed account). -/
def BumpSequenceOperationBuilder.with_source_account
    (self : BumpSequenceOperationBuilder) (source : MuxedAccount) :
    BumpSequenceOperationBuilder :=
  { self with source_account := some source }

/-- Embeds `BumpSequenceOperationBuilder::with_bump_to`. -/
def BumpSequenceOperationBuilder.with_bump_to
    (self : BumpSequenceOperationBuilder) (bump_to : Int) :
    BumpSequenceOperationBuilder :=
  { self with bump_to := some bump_to }

/-- Embeds `BumpSequenceOperationBuilder::build`. -/
def BumpSequenceOperationBuilder.build
    (self : BumpSequenceOperationBuilder) : Except Error Operation :=
  match self.bump_to with
  | none =>
      Except.error (Error.InvalidOperation "missing bump sequence bump to")
  | some bump_to =>
      if bump_to < 0 then
        Except.error
          (Error.InvalidOperation "bump sequence bump to must be non negative")
      else
        Except.ok (Operation.BumpSequence
          { source_account := self.source_account, bump_to := bump_to })

/-- Claim C1: for every valid `BumpSequenceOperation` (non-negative
`bump_to`, any optional source account), decoding the operation body
produced by `to_xdr_operation_body` via `from_xdr_operation_body` with the
operation's source account yields a value equal to the original. -/
theorem bump_sequence_decode_after_encode
    (v : BumpSequenceOperation) (h : 0 ≤ v.bump_to) :
    ∃ inner,
      v.to_xdr_operation_body
          = Except.ok (xdr.OperationBody.BumpSequence inner)
        ∧ BumpSequenceOperation.from_xdr_operation_body v.source_account inner
          = Except.ok v :=
  ⟨{ bump_to := xdr.SequenceNumber.new (xdr.Int64.new v.bump_to) }, rfl, rfl⟩

/-- Witness for claim C1 at a concrete operation. -/
theorem bump_sequence_decode_after_encode_witness :
    ∃ inner,
      BumpSequenceOperation.to_xdr_operation_body
          { source_account := some (MuxedAccount.mk 7), bump_to := 5 }
          = Except.ok (xdr.OperationBody.BumpSequence inner)
        ∧ BumpSequenceOperation.from_xdr_operation_body
            (some (MuxedAccount.mk 7)) inner
          = Except.ok { source_account := some (MuxedAccount.mk 7), bump_to := 5 } :=
  bump_sequence_decode_after_encode
    { source_account := some (MuxedAccount.mk 7), bump_to := 5 } (by decide)

/-- Claim C2: every `xdr.BumpSequenceOp` that decodes successfully via
`from_xdr_operation_body` (with any optional source account) re-encodes via
`to_xdr_operation_body` to an operation body whose payload equals the
original. -/
theorem bump_sequence_encode_after_decode
    (src : Option MuxedAccount) (x : xdr.BumpSequenceOp)
    (op : BumpSequenceOperation)
    (h : BumpSequenceOperation.from_xdr_operation_body src x = Except.ok op) :
    op.to_xdr_operation_body = Except.ok (xdr.OperationBody.BumpSequence x) := by
  have hop : ({ source_account := src, bump_to := x.bump_to.value.value }
      : BumpSequenceOperation) = op := by
    injection h
  subst hop
  rfl

/-- Witness for claim C2 at a concrete payload. -/
theorem bump_sequence_encode_after_decode_witness :
    BumpSequenceOperation.to_xdr_operation_body
        { source_account := none, bump_to := 42 }
      = Except.ok (xdr.OperationBody.BumpSequence
          { bump_to := xdr.SequenceNumber.new (xdr.Int64.new 42) }) :=
  bump_sequence_encode_after_decode none
    { bump_to := xdr.SequenceNumber.new (xdr.Int64.new 42) }
    { source_account := none, bump_to := 42 } rfl

/-- Claim C3 counterexample: `from_xdr_operation_body` does NOT reject a
negative `bump_to`; on a payload carrying `-1` it returns `Ok` with a
negative target instead of an error. -/
theorem bump_sequence_decode_negative_counterexample :
    BumpSequenceOperation.from_xdr_operation_body none
        { bump_to := xdr.SequenceNumber.new (xdr.Int64.new (-1)) }
      = Except.ok { source_account := none, bump_to := -1 } := rfl

/-- Claim C3 amended: `from_xdr_operation_body` performs no validation at
all; for every `xdr.BumpSequenceOp`, including one with a negative
`bump_to`, it returns `Ok`, reconstructing the operation with the given
(possibly negative) target. -/
theorem bump_sequence_decode_never_rejects
    (src : Option MuxedAccount) (x : xdr.BumpSequenceOp) :
    BumpSequenceOperation.from_xdr_operation_body src x
      = Except.ok { source_account := src, bump_to := x.bump_to.value.value } :=
  rfl

/-- Claim C4: on every builder whose required `bump_to` field was never
set (regardless of the source account field), `build` returns the
missing-field validation error, never a default-valued success. -/
theorem bump_sequence_build_missing_field
    (b : BumpSequenceOperationBuilder) (h : b.bump_to = none) :
    b.build
      = Except.error (Error.InvalidOperation "missing bump sequence bump to") := by
  simp [BumpSequenceOperationBuilder.build, h]

/-- Witness for claim C4 on a fresh builder with only the source account
set. -/
theorem bump_sequence_build_missing_field_witness :
    (BumpSequenceOperationBuilder.new.with_source_account
        (MuxedAccount.mk 3)).build
      = Except.error (Error.InvalidOperation "missing bump sequence bump to") :=
  bump_sequence_build_missing_field
    (BumpSequenceOperationBuilder.new.with_source_account (MuxedAccount.mk 3)) rfl

/-- Claim C5: on every builder whose last `with_bump_to` call set a
negative value, `build` returns the invalid-value validation error. -/
theorem bump_sequence_build_negative_invalid
    (b : BumpSequenceOperationBuilder) (n : Int) (h : n < 0) :
    (b.with_bump_to n).build
      = Except.error
          (Error.InvalidOperation "bump sequence bump to must be non negative") := by
  simp [BumpSequenceOperationBuilder.build,
    BumpSequenceOperationBuilder.with_bump_to, h]

/-- Witness for claim C5 at target `-1`. -/
theorem bump_sequence_build_negative_invalid_witness :
    (BumpSequenceOperationBuilder.new.with_bump_to (-1)).build
      = Except.error
          (Error.InvalidOperation "bump sequence bump to must be non negative") :=
  bump_sequence_build_negative_invalid BumpSequenceOperationBuilder.new (-1)
    (by decide)

/-- Claim C6: on every builder whose last `with_bump_to` call set a
non-negative value `n`, `build` succeeds with `Operation.BumpSequence`
carrying target `n` and the builder's source account. -/
theorem bump_sequence_build_nonneg_succeeds
    (b : BumpSequenceOperationBuilder) (n : Int) (h : 0 ≤ n) :
    (b.with_bump_to n).build
      = Except.ok (Operation.BumpSequence
          { source_account := b.source_account, bump_to := n }) := by
  have hn : ¬ n < 0 := not_lt.mpr h
  simp [BumpSequenceOperationBuilder.build,
    BumpSequenceOperationBuilder.with_bump_to, hn]

/-- Witness for claim C6 at target `i64::MAX` on a fresh builder (source
account never set, hence `none`). -/
theorem bump_sequence_build_nonneg_succeeds_witness :
    (BumpSequenceOperationBuilder.new.with_bump_to 9223372036854775807).build
      = Except.ok (Operation.BumpSequence
          { source_account := none, bump_to := 9223372036854775807 }) :=
  bump_sequence_build_nonneg_succeeds BumpSequenceOperationBuilder.new
    9223372036854775807 (by decide)

/-- Claim C7: `to_xdr_operation_body` never fails on an operation
satisfying the type invariant (non-negative `bump_to`). -/
theorem bump_sequence_encode_infallible
    (v : BumpSequenceOperation) (h : 0 ≤ v.bump_to) :
    ∃ body, v.to_xdr_operation_body = Except.ok body :=
  ⟨_, rfl⟩

/-- Witness for claim C7 at a concrete operation. -/
theorem bump_sequence_encode_infallible_witness :
    ∃ body,
      BumpSequenceOperation.to_xdr_operation_body
          { source_account := none, bump_to := 0 }
        = Except.ok body :=
  bump_sequence_encode_infallible { source_account := none, bump_to := 0 }
    (by decide)

/-- Claim C8: the encoded body is `OperationBody.BumpSequence` whose
payload carries exactly the `bump_to` value and nothing else, and two
operations that agree on `bump_to` (so possibly differing only in their
source account) encode to identical bodies. -/
theorem bump_sequence_encode_payload_only_target
    (v w : BumpSequenceOperation) :
    v.to_xdr_operation_body
      = Except.ok (xdr.OperationBody.BumpSequence
          { bump_to := xdr.SequenceNumber.new (xdr.Int64.new v.bump_to) })
    ∧ (v.bump_to = w.bump_to →
        v.to_xdr_operation_body = w.to_xdr_operation_body) := by
  refine ⟨rfl, fun h => ?_⟩
  simp [BumpSequenceOperation.to_xdr_operation_body, h]

/-- Witness for claim C8 at two concrete operations differing only in
their source account. -/
theorem bump_sequence_encode_payload_only_target_witness :
    BumpSequenceOperation.to_xdr_operation_body
        { source_account := none, bump_to := 9 }
      = Except.ok (xdr.OperationBody.BumpSequence
          { bump_to := xdr.SequenceNumber.new (xdr.Int64.new 9) })
    ∧ ((9 : Int) = 9 →
        BumpSequenceOperation.to_xdr_operation_body
            { source_account := none, bump_to := 9 }
          = BumpSequenceOperation.to_xdr_operation_body
              { source_account := some (MuxedAccount.mk 1), bump_to := 9 }) :=
  bump_sequence_encode_payload_only_target
    { source_account := none, bump_to := 9 }
    { source_account := some (MuxedAccount.mk 1), bump_to := 9 }

/-- Claim C9: the setters overwrite silently; calling `with_bump_to` (or
`with_source_account`) twice leaves the builder in the same state as a
single call with the second argument. -/
theorem bump_sequence_setters_overwrite
    (b : BumpSequenceOperationBuilder) (n m : Int) (s t : MuxedAccount) :
    (b.with_bump_to n).with_bump_to m = b.with_bump_to m
    ∧ (b.with_source_account s).with_source_account t
        = b.with_source_account t :=
  ⟨rfl, rfl⟩

/-- Claim C10: each setter modifies only its own field; `with_bump_to`
leaves `source_account` unchanged and `with_source_account` leaves
`bump_to` unchanged. -/
theorem bump_sequence_setters_frame
    (b : BumpSequenceOperationBuilder) (n : Int) (s : MuxedAccount) :
    (b.with_bump_to n).source_account = b.source_account
    ∧ (b.with_source_account s).bump_to = b.bump_to :=
  ⟨rfl, rfl⟩
